import Mathlib

/-!
Shallow embedding of the whole-life-carbon-solar lifecycle carbon accounting
engine. Python floats are modelled as rationals; the Python built-in `round`
(bankerQs rounding, round half to even) is modelled by `roundTo`; Python
`None` is `Option.none`; Python exceptions are `Except` / structured error
values; Python truthiness of numbers and strings (`x or d`) is modelled by
the `pyOr*` helpers.

Sources embedded: src/emissions_factors.py, src/materials_loader_ice.py,
src/transport_emissions_factors.py, src/construction_emissions_factors.py,
src/replacement_rate.py, src/main.py.
-/

attribute [local semireducible] Rat.mul Rat.add Rat.sub Rat.inv Rat.ofScientific

deriving instance DecidableEq for Except

namespace SolarCarbon

/-- Round half to even to an integer, the semantics of Python `round(x)`. -/
def roundHalfEven (x : ℚ) : ℤ :=
  if x - (⌊x⌋ : ℚ) < 1/2 then ⌊x⌋
  else if 1/2 < x - (⌊x⌋ : ℚ) then ⌊x⌋ + 1
  else if Even ⌊x⌋ then ⌊x⌋ else ⌊x⌋ + 1

/-- Python `round(x, n)` for `n` decimal places. -/
def roundTo (n : ℕ) (x : ℚ) : ℚ :=
  (roundHalfEven (x * 10 ^ n) : ℚ) / 10 ^ n

/-- Python `s or d` for an optional string: `None` and `""` are falsy. -/
def pyOrStr : Option String → String → String
  | some s, d => if s = "" then d else s
  | none, d => d

/-- Python `x or d` for an optional float: `None` and `0.0` are falsy. -/
def pyOrQ : Option ℚ → ℚ → ℚ
  | some v, d => if v = 0 then d else v
  | none, d => d

/-- Python truthiness for an optional float (`None` and `0.0` falsy). -/
def pyTruthyQ : Option ℚ → Bool
  | some v => v != 0
  | none => false

/-- Python truthiness for an optional int (`None` and `0` falsy). -/
def pyTruthyInt : Option ℤ → Bool
  | some v => v != 0
  | none => false

/-- Python `str.lower()` (ASCII case suffices for the keys used here). -/
def lowerString (s : String) : String :=
  String.mk (s.toList.map Char.toLower)

/-- Python `mode.lower().replace(" ", "_")` in transport factor lookup. -/
def spacesToUnderscores (s : String) : String :=
  String.mk (s.toList.map (fun c => if c = ' ' then '_' else c))

/-- Structured stand-ins for the KeyError / ValueError exceptions raised by
the factor resolvers, and the ValueError raised by coordinate resolution. -/
inductive CalcError
  | keyNotFound (key : String)
  | notPopulated (key : String)
  | noGridFactor (country : String) (year : ℤ)
  | invalidPostcode
  | missingLocation
deriving DecidableEq, Repr

/-- emissions_factors.EmissionFactor dataclass. -/
structure EmissionFactor where
  value : ℚ
  unit : String
  source : String
  year : ℤ
  region : String
  notes : Option String
deriving DecidableEq, Repr

/-- emissions_factors.get_grid_electricity_factor. The OWID reference table
(an external dataset, downloaded and cached by `_load_owid_data`) is
abstracted as a lookup function from country identifier and year to an
optional kgCO2e/kWh value. -/
def get_grid_electricity_factor (table : String → ℤ → Option ℚ)
    (country : String) (year : ℤ)
    (override_value : Option ℚ) (override_source : Option String) :
    Except CalcError EmissionFactor :=
  match override_value with
  | some v =>
      .ok { value := v, unit := "kgCO2e/kWh",
            source := pyOrStr override_source "User override",
            year := year, region := country,
            notes := some "User-supplied value overrides database" }
  | none =>
      match table country year with
      | some v =>
          .ok { value := v, unit := "kgCO2e/kWh",
                source := "Our World in Data - electricity carbon intensity",
                year := year, region := country,
                notes := some "Annual average grid electricity carbon intensity" }
      | none => .error (.noGridFactor country year)

/-- materials_loader_ice.MaterialEmissionFactor dataclass. -/
structure MaterialEmissionFactor where
  material : String
  value : ℚ
  unit : String
  source : String
  notes : Option String
deriving DecidableEq, Repr

/-- materials_loader_ice.SIMPLIFIED_PV_MATERIAL_FACTORS: the static table of
simplified PV material factors; glass, silicon_pv and copper carry the
zero-valued TODO placeholders of the source. -/
def SIMPLIFIED_PV_MATERIAL_FACTORS : String → Option MaterialEmissionFactor
  | "aluminium" => some
      { material := "Aluminium, General worldwide (PV module frames / rails)",
        value := 13.1, unit := "kgCO2e/kg",
        source := "ICE Database v4.1 (mean of aluminium profiles)",
        notes := some "Generic primary aluminium" }
  | "steel" => some
      { material := "Steel (PV mounting structures)",
        value := 1.64, unit := "kgCO2e/kg",
        source := "ICE Database v4.1 (mean structural steel)",
        notes := some "Generic hot-rolled engineering steel" }
  | "concrete" => some
      { material := "Concrete 32/40 MPa (PV foundations / ballast)",
        value := 0.134, unit := "kgCO2e/kg",
        source := "ICE Database v4.1 (mean ready-mix concrete)",
        notes := some "Highly mix-dependent" }
  | "glass" => some
      { material := "Glass (PV module frontsheet)",
        value := 0.0, unit := "kgCO2e/kg",
        source := "ICE Database v4.1 (mean flat glass)",
        notes := some "Flat glass typical of crystalline silicon PV modules." }
  | "silicon_pv" => some
      { material := "Silicon (PV cells)",
        value := 0.0, unit := "kgCO2e/kg",
        source := "ICE Database v4.1 / literature (mono-Si PV cells)",
        notes := some "Very energy-intensive material" }
  | "copper" => some
      { material := "Copper (PV cabling and electrical components)",
        value := 0.0, unit := "kgCO2e/kg",
        source := "ICE Database v4.1 (mean copper)",
        notes := some "Often a small contributor but included for completeness." }
  | _ => none

/-- materials_loader_ice.get_material_factor: override wins outright; a key
missing from the table raises KeyError; a zero-valued placeholder raises
ValueError. -/
def get_material_factor (material_key : String)
    (override_value : Option ℚ) (override_unit : Option String)
    (override_source : Option String) :
    Except CalcError MaterialEmissionFactor :=
  let key := lowerString material_key
  match override_value with
  | some v =>
      .ok { material := key, value := v,
            unit := pyOrStr override_unit "kgCO2e/kg",
            source := pyOrStr override_source "User override",
            notes := some "User-supplied value overrides simplified ICE reference" }
  | none =>
      match SIMPLIFIED_PV_MATERIAL_FACTORS key with
      | none => .error (.keyNotFound key)
      | some factor =>
          if factor.value = 0 then .error (.notPopulated key) else .ok factor

/-- transport_emissions_factors.TransportEmissionFactor dataclass. -/
structure TransportEmissionFactor where
  mode : String
  value : ℚ
  unit : String
  source : String
  notes : Option String
deriving DecidableEq, Repr

/-- transport_emissions_factors.TransportLeg dataclass. -/
structure TransportLeg where
  mode : String
  distance_km : ℚ
  mass_tonnes : ℚ
deriving DecidableEq, Repr

/-- transport_emissions_factors.TRANSPORT_EMISSION_FACTORS static table. -/
def TRANSPORT_EMISSION_FACTORS : String → Option TransportEmissionFactor
  | "truck_hgv" => some
      { mode := "Heavy Goods Vehicle (HGV) - Average", value := 0.11072,
        unit := "kgCO2e/tkm",
        source := "UK Government GHG Conversion Factors 2024 (DESNZ)",
        notes := some "Average laden HGV (all diesel)." }
  | "truck_rigid" => some
      { mode := "Rigid HGV (average)", value := 0.26587,
        unit := "kgCO2e/tkm",
        source := "UK Government GHG Conversion Factors 2024 (DESNZ)",
        notes := some "Rigid trucks, average weight class." }
  | "truck_articulated" => some
      { mode := "Articulated HGV (average)", value := 0.06294,
        unit := "kgCO2e/tkm",
        source := "UK Government GHG Conversion Factors 2024 (DESNZ)",
        notes := some "Articulated trucks, more efficient for long-haul." }
  | "ship_container" => some
      { mode := "Container ship", value := 0.00631,
        unit := "kgCO2e/tkm",
        source := "UK Government GHG Conversion Factors 2024 (DESNZ)",
        notes := some "Large container ship. Very efficient per tkm." }
  | "ship_bulk" => some
      { mode := "Bulk carrier", value := 0.00494,
        unit := "kgCO2e/tkm",
        source := "UK Government GHG Conversion Factors 2024 (DESNZ)",
        notes := some "Bulk cargo ships (e.g., steel, materials)." }
  | "rail_freight" => some
      { mode := "Rail freight", value := 0.02678,
        unit := "kgCO2e/tkm",
        source := "UK Government GHG Conversion Factors 2024 (DESNZ)",
        notes := some "UK rail freight average." }
  | "air_freight" => some
      { mode := "Air freight", value := 1.13,
        unit := "kgCO2e/tkm",
        source := "UK Government GHG Conversion Factors 2024 (DESNZ)",
        notes := some "Very high emissions. Avoid for bulk materials." }
  | _ => none

/-- transport_emissions_factors.get_transport_factor. -/
def get_transport_factor (mode : String)
    (override_value : Option ℚ) (override_source : Option String) :
    Except CalcError TransportEmissionFactor :=
  match override_value with
  | some v =>
      .ok { mode := mode, value := v, unit := "kgCO2e/tkm",
            source := pyOrStr override_source "User override",
            notes := some "User-supplied transport emission factor" }
  | none =>
      let mode_key := spacesToUnderscores (lowerString mode)
      match TRANSPORT_EMISSION_FACTORS mode_key with
      | none => .error (.keyNotFound mode)
      | some f => .ok f

/-- main.MaterialQuantities pydantic model (all quantities default 0.0). -/
structure MaterialQuantities where
  aluminium_kg : ℚ := 0
  steel_kg : ℚ := 0
  concrete_kg : ℚ := 0
  glass_kg : ℚ := 0
  silicon_pv_kg : ℚ := 0
  copper_kg : ℚ := 0
deriving DecidableEq, Repr

/-- One slot of the embodied-carbon breakdown dict: either the success dict
with quantity, factor, rounded emissions and source, or the error dict with
quantity and the captured exception. -/
inductive MaterialItem
  | ok (quantity_kg : ℚ) (factor_kgCO2e_per_kg : ℚ)
      (emissions_kgCO2e : ℚ) (emissions_tonnesCO2e : ℚ) (source : String)
  | err (quantity_kg : ℚ) (error : CalcError)
deriving DecidableEq, Repr

/-- The dict returned by main.calculate_embodied_carbon. -/
structure EmbodiedResult where
  total_kgCO2e : ℚ
  total_tonnesCO2e : ℚ
  breakdown : List (String × MaterialItem)
  note : Option String
deriving DecidableEq, Repr

/-- The `material_map` dict of main.calculate_embodied_carbon, in source
order. -/
def material_map (m : MaterialQuantities) : List (String × ℚ) :=
  [("aluminium", m.aluminium_kg), ("steel", m.steel_kg),
   ("concrete", m.concrete_kg), ("glass", m.glass_kg),
   ("silicon_pv", m.silicon_pv_kg), ("copper", m.copper_kg)]

/-- One iteration of the embodied loop body for a material with positive
quantity: resolve the factor and build the breakdown slot (success or
captured error). -/
def material_entry (k : String) (q : ℚ) : String × MaterialItem :=
  match get_material_factor k none none none with
  | .ok factor =>
      (k, .ok q factor.value (roundTo 2 (q * factor.value))
          (roundTo 3 (q * factor.value / 1000)) factor.source)
  | .error e => (k, .err q e)

/-- The amount a material adds to `total_kg`: the emissions on successful
resolution, nothing when the resolver raises (the except-branch skips the
accumulation). -/
def embodied_contribution (k : String) (q : ℚ) : ℚ :=
  match get_material_factor k none none none with
  | .ok factor => q * factor.value
  | .error _ => 0

/-- The exact (pre-rounding) `total_kg` accumulated by the loop of
main.calculate_embodied_carbon over a material list, skipping non-positive
quantities. -/
def embodied_total_list : List (String × ℚ) → ℚ
  | [] => 0
  | (k, q) :: rest =>
      (if 0 < q then embodied_contribution k q else 0) + embodied_total_list rest

/-- Exact unrounded embodied total for a MaterialQuantities record. -/
def embodied_total_exact (m : MaterialQuantities) : ℚ :=
  embodied_total_list (material_map m)

/-- Exact unrounded embodied total for the optional materials input. -/
def embodied_total_exactOpt : Option MaterialQuantities → ℚ
  | none => 0
  | some m => embodied_total_exact m

/-- The breakdown dict built by the loop of main.calculate_embodied_carbon:
one slot per material with positive quantity, in source order. -/
def embodied_breakdown (m : MaterialQuantities) : List (String × MaterialItem) :=
  ((material_map m).filter (fun p => 0 < p.2)).map (fun p => material_entry p.1 p.2)

/-- main.calculate_embodied_carbon. -/
def calculate_embodied_carbon : Option MaterialQuantities → EmbodiedResult
  | none =>
      { total_kgCO2e := 0, total_tonnesCO2e := 0, breakdown := [],
        note := some "No materials provided" }
  | some m =>
      { total_kgCO2e := roundTo 2 (embodied_total_exact m),
        total_tonnesCO2e := roundTo 3 (embodied_total_exact m / 1000),
        breakdown := embodied_breakdown m, note := none }

/-- One entry of the transport breakdown list: the success dict (with 1-based
leg number, display mode name, rounded tonne-km and emissions) or the error
dict for an unknown mode. -/
inductive TransportItem
  | ok (leg : ℕ) (mode : String) (mass_tonnes : ℚ) (distance_km : ℚ)
      (tonne_km : ℚ) (factor_kgCO2e_per_tkm : ℚ) (emissions_kgCO2e : ℚ)
      (source : String)
  | err (leg : ℕ) (mode : String) (error : CalcError)
deriving DecidableEq, Repr

/-- The dict returned by
transport_emissions_factors.calculate_transport_emissions. -/
structure TransportResult where
  total_kgCO2e : ℚ
  total_tonnesCO2e : ℚ
  breakdown : List TransportItem
  note : Option String
deriving DecidableEq, Repr

/-- One iteration of the transport loop at 0-based index `i`: resolve the
factor (honouring a per-mode custom factor map) and build the breakdown
entry. -/
def transport_item (custom_factors : Option (String → Option ℚ))
    (i : ℕ) (leg : TransportLeg) : TransportItem :=
  let override_val := match custom_factors with
    | some cf => cf leg.mode
    | none => none
  match get_transport_factor leg.mode override_val none with
  | .error e => .err (i + 1) leg.mode e
  | .ok factor =>
      let tonne_km := leg.mass_tonnes * leg.distance_km
      let emissions_kg := tonne_km * factor.value
      .ok (i + 1) factor.mode leg.mass_tonnes leg.distance_km
        (roundTo 2 tonne_km) factor.value (roundTo 2 emissions_kg) factor.source

/-- The amount a leg adds to `total_kgco2e` (zero when its mode is unknown:
the error branch `continue`s without accumulating). -/
def transport_contribution (custom_factors : Option (String → Option ℚ))
    (leg : TransportLeg) : ℚ :=
  let override_val := match custom_factors with
    | some cf => cf leg.mode
    | none => none
  match get_transport_factor leg.mode override_val none with
  | .error _ => 0
  | .ok factor => leg.mass_tonnes * leg.distance_km * factor.value

/-- Exact (pre-rounding) `total_kgco2e` accumulated over the legs. -/
def transport_total_exact (custom_factors : Option (String → Option ℚ)) :
    List TransportLeg → ℚ
  | [] => 0
  | leg :: rest =>
      transport_contribution custom_factors leg
        + transport_total_exact custom_factors rest

/-- The transport breakdown list starting at 0-based index `i`. -/
def transport_breakdown (custom_factors : Option (String → Option ℚ)) :
    ℕ → List TransportLeg → List TransportItem
  | _, [] => []
  | i, leg :: rest =>
      transport_item custom_factors i leg
        :: transport_breakdown custom_factors (i + 1) rest

/-- transport_emissions_factors.calculate_transport_emissions. -/
def calculate_transport_emissions (legs : List TransportLeg)
    (custom_factors : Option (String → Option ℚ)) : TransportResult :=
  let total := transport_total_exact custom_factors legs
  { total_kgCO2e := roundTo 2 total,
    total_tonnesCO2e := roundTo 3 (total / 1000),
    breakdown := transport_breakdown custom_factors 0 legs,
    note := none }

/-- construction_emissions_factors.FUEL_EMISSION_FACTORS entry. -/
structure FuelFactor where
  value : ℚ
  unit : String
  source : String
deriving DecidableEq, Repr

/-- construction_emissions_factors.FUEL_EMISSION_FACTORS static table. -/
def FUEL_EMISSION_FACTORS : String → Option FuelFactor
  | "diesel" => some
      { value := 2.69, unit := "kgCO2e/L",
        source := "UK Government GHG Conversion Factors 2024" }
  | "petrol" => some
      { value := 2.32, unit := "kgCO2e/L",
        source := "UK Government GHG Conversion Factors 2024" }
  | "grid_electricity" => some
      { value := 0.234, unit := "kgCO2e/kWh",
        source := "UK Government GHG Conversion Factors 2024" }
  | _ => none

/-- Value field of a FUEL_EMISSION_FACTORS entry. The Python code indexes
the dict directly; every fuel_type stored in EQUIPMENT_FUEL_RATES is
"diesel", so the `none` branch is unreachable from the source tables. -/
def fuelFactorValue (fuel_type : String) : ℚ :=
  match FUEL_EMISSION_FACTORS fuel_type with
  | some f => f.value
  | none => 0

/-- construction_emissions_factors.EQUIPMENT_FUEL_RATES entry. -/
structure EquipmentRate where
  fuel_type : String
  consumption_l_per_hour : ℚ
  description : String
  source : String
deriving DecidableEq, Repr

/-- construction_emissions_factors.EQUIPMENT_FUEL_RATES static table. -/
def EQUIPMENT_FUEL_RATES : String → Option EquipmentRate
  | "mobile_crane_medium" => some
      { fuel_type := "diesel", consumption_l_per_hour := 15.0,
        description := "Medium mobile crane (20-50 tonne capacity)",
        source := "Construction Equipment Guide - typical medium crane consumption" }
  | "mobile_crane_large" => some
      { fuel_type := "diesel", consumption_l_per_hour := 25.0,
        description := "Large mobile crane (50+ tonne capacity)",
        source := "Construction Equipment Guide - typical large crane consumption" }
  | "excavator_medium" => some
      { fuel_type := "diesel", consumption_l_per_hour := 12.0,
        description := "Medium excavator (10-20 tonne)",
        source := "Construction Equipment Guide - typical excavator consumption" }
  | "forklift_diesel" => some
      { fuel_type := "diesel", consumption_l_per_hour := 3.5,
        description := "Diesel forklift (2-5 tonne capacity)",
        source := "Construction Equipment Guide - typical forklift consumption" }
  | "telehandler" => some
      { fuel_type := "diesel", consumption_l_per_hour := 8.0,
        description := "Telescopic handler",
        source := "Construction Equipment Guide - typical telehandler consumption" }
  | "generator_small" => some
      { fuel_type := "diesel", consumption_l_per_hour := 2.5,
        description := "Small diesel generator (20-50 kVA)",
        source := "Generator manufacturer specifications - typical small unit" }
  | "generator_medium" => some
      { fuel_type := "diesel", consumption_l_per_hour := 5.0,
        description := "Medium diesel generator (50-150 kVA)",
        source := "Generator manufacturer specifications - typical medium unit" }
  | _ => none

/-- construction_emissions_factors.WORKER_CAR_EMISSION_FACTOR. -/
def WORKER_CAR_EMISSION_FACTOR : FuelFactor :=
  { value := 0.17058, unit := "kgCO2e/km",
    source := "UK Government GHG Conversion Factors 2024" }

/-- construction_emissions_factors.EquipmentUsage. -/
structure EquipmentUsage where
  equipment_type : String
  hours : ℚ
deriving DecidableEq, Repr

/-- Structured rendering of the `description` f-string of a
ConstructionActivity: it carries the consumed litres and fuel type, the
total worker km and car factor, or the kWh and the grid factor actually
applied. -/
inductive ActivityDesc
  | fuelUse (liters : ℚ) (fuel_type : String)
  | workerTravel (total_km : ℚ) (car_factor : ℚ)
  | gridUse (kwh : ℚ) (grid_factor : ℚ)
deriving DecidableEq, Repr

/-- construction_emissions_factors.ConstructionActivity dataclass. -/
structure ConstructionActivity where
  activity : String
  emissions_kgCO2e : ℚ
  description : ActivityDesc
  source : String
deriving DecidableEq, Repr

/-- Assumptions dict of the simple-method construction result (the numeric
fields; the note and source strings of the source dict are fixed text). -/
structure SimpleAssumptions where
  embodied_carbon_kgCO2e : ℚ
  percentage_used : ℚ
deriving DecidableEq, Repr

/-- The dicts returned by the construction calculators share this shape:
`method`/`assumptions`/`note` are populated according to which method (or
the invalid-method fallback of main.calculate_construction_emissions)
produced the result. -/
structure ConstructionResult where
  method : Option String
  total_kgCO2e : ℚ
  total_tonnesCO2e : ℚ
  breakdown : List ConstructionActivity
  assumptions : Option SimpleAssumptions
  note : Option String
deriving DecidableEq, Repr

/-- construction_emissions_factors.calculate_construction_simple. -/
def calculate_construction_simple (embodied_carbon_kgCO2e : ℚ)
    (percentage : ℚ) : ConstructionResult :=
  let construction_emissions := embodied_carbon_kgCO2e * (percentage / 100)
  { method := some "simple_percentage",
    total_kgCO2e := roundTo 2 construction_emissions,
    total_tonnesCO2e := roundTo 3 (construction_emissions / 1000),
    breakdown := [],
    assumptions := some { embodied_carbon_kgCO2e := embodied_carbon_kgCO2e,
                          percentage_used := percentage },
    note := none }

/-- Section 1 of calculate_construction_detailed for one equipment usage:
`none` when the equipment type is unknown (silently skipped), otherwise the
exact emissions together with the breakdown activity. -/
def equipment_activity (usage : EquipmentUsage) :
    Option (ℚ × ConstructionActivity) :=
  match EQUIPMENT_FUEL_RATES usage.equipment_type with
  | none => none
  | some equip =>
      let fuel_consumed_l := equip.consumption_l_per_hour * usage.hours
      let fuel_factor := fuelFactorValue equip.fuel_type
      let emissions := fuel_consumed_l * fuel_factor
      some (emissions,
        { activity := equip.description,
          emissions_kgCO2e := roundTo 2 emissions,
          description := .fuelUse fuel_consumed_l equip.fuel_type,
          source := equip.source })

/-- Equipment section of the detailed method: exact total and activities. -/
def detailed_equipment_part : List EquipmentUsage → ℚ × List ConstructionActivity
  | [] => (0, [])
  | usage :: rest =>
      let tail := detailed_equipment_part rest
      match equipment_activity usage with
      | none => tail
      | some (e, act) => (e + tail.1, act :: tail.2)

/-- Worker-transport section of the detailed method (gated on all three
inputs being truthy in the Python sense). -/
def detailed_worker_part (worker_transport_km : Option ℚ)
    (num_workers num_days : Option ℤ) : ℚ × List ConstructionActivity :=
  if pyTruthyQ worker_transport_km && pyTruthyInt num_workers
      && pyTruthyInt num_days then
    match worker_transport_km, num_workers, num_days with
    | some km, some w, some d =>
        let car_factor := WORKER_CAR_EMISSION_FACTOR.value
        let total_worker_km := km * (w : ℚ) * (d : ℚ)
        let worker_emissions := total_worker_km * car_factor
        (worker_emissions,
         [{ activity := "Worker transport",
            emissions_kgCO2e := roundTo 2 worker_emissions,
            description := .workerTravel total_worker_km car_factor,
            source := WORKER_CAR_EMISSION_FACTOR.source }])
    | _, _, _ => (0, [])
  else (0, [])

/-- Grid-electricity section of the detailed method: gated on a truthy
`grid_electricity_kwh`; the factor is `grid_carbon_factor or` the static
grid_electricity default (Python `or`, so a supplied 0.0 also falls back). -/
def detailed_grid_part (grid_electricity_kwh grid_carbon_factor : Option ℚ) :
    ℚ × List ConstructionActivity :=
  if pyTruthyQ grid_electricity_kwh then
    match grid_electricity_kwh with
    | some kwh =>
        let grid_factor := pyOrQ grid_carbon_factor (fuelFactorValue "grid_electricity")
        let elec_emissions := kwh * grid_factor
        (elec_emissions,
         [{ activity := "Grid electricity on site",
            emissions_kgCO2e := roundTo 2 elec_emissions,
            description := .gridUse kwh grid_factor,
            source := "UK Government GHG Conversion Factors 2024" }])
    | none => (0, [])
  else (0, [])

/-- construction_emissions_factors.calculate_construction_detailed. -/
def calculate_construction_detailed (equipment_usage : List EquipmentUsage)
    (worker_transport_km : Option ℚ) (num_workers num_days : Option ℤ)
    (grid_electricity_kwh grid_carbon_factor : Option ℚ) : ConstructionResult :=
  let equip := detailed_equipment_part equipment_usage
  let worker := detailed_worker_part worker_transport_km num_workers num_days
  let grid := detailed_grid_part grid_electricity_kwh grid_carbon_factor
  let total_emissions := equip.1 + worker.1 + grid.1
  { method := some "detailed_itemized",
    total_kgCO2e := roundTo 2 total_emissions,
    total_tonnesCO2e := roundTo 3 (total_emissions / 1000),
    breakdown := equip.2 ++ worker.2 ++ grid.2,
    assumptions := none,
    note := none }

/-- replacement_rate.ReplacementInput pydantic model with its defaults. -/
structure ReplacementInput where
  system_lifetime_years : ℤ := 25
  module_degradation_rate_pct_per_year : ℚ := 0.5
  inverter_lifetime_years : Option ℤ := some 12
  inverter_embodied_kgCO2e_per_kwp : Option ℚ := some 30
  additional_replacement_percent_of_embodied : Option ℚ := some 0
deriving DecidableEq, Repr

/-- The dict returned by replacement_rate.calculate_replacement_emissions.
The degenerate no-input dict carries only the totals and the note; the
other fields are zero there. -/
structure ReplacementResult where
  system_lifetime_years : ℤ
  module_degradation_rate_pct_per_year : ℚ
  lifetime_generation_kwh : ℚ
  lifetime_avoided_kgCO2e : ℚ
  lifetime_avoided_tonnesCO2e : ℚ
  average_annual_generation_kwh : ℚ
  inverter_lifetime_years : ℤ
  inverter_replacements : ℤ
  inverter_emissions_kgCO2e : ℚ
  additional_replacement_percent_of_embodied : ℚ
  additional_replacement_emissions_kgCO2e : ℚ
  total_kgCO2e : ℚ
  total_tonnesCO2e : ℚ
  note : Option String
deriving DecidableEq, Repr

/-- The degradation loop of calculate_replacement_emissions:
`for year_index in range(lifetime_years): lifetime += annual * factor ** i`. -/
def lifetime_generation (lifetime_years : ℕ) (annual_generation_kwh : ℚ)
    (degradation_factor : ℚ) : ℚ :=
  (List.range lifetime_years).foldl
    (fun acc i => acc + annual_generation_kwh * degradation_factor ^ i) 0

/-- replacement_rate.calculate_replacement_emissions. -/
def calculate_replacement_emissions (replacements_input : Option ReplacementInput)
    (capacity_kwp annual_generation_kwh embodied_carbon_kgCO2e carbon_factor : ℚ) :
    ReplacementResult :=
  match replacements_input with
  | none =>
      { system_lifetime_years := 0, module_degradation_rate_pct_per_year := 0,
        lifetime_generation_kwh := 0, lifetime_avoided_kgCO2e := 0,
        lifetime_avoided_tonnesCO2e := 0, average_annual_generation_kwh := 0,
        inverter_lifetime_years := 0, inverter_replacements := 0,
        inverter_emissions_kgCO2e := 0,
        additional_replacement_percent_of_embodied := 0,
        additional_replacement_emissions_kgCO2e := 0,
        total_kgCO2e := 0, total_tonnesCO2e := 0,
        note := some "No replacement inputs provided" }
  | some r =>
      let lifetime_years : ℤ := max 1 r.system_lifetime_years
      let degradation_rate := max 0 r.module_degradation_rate_pct_per_year / 100
      let degradation_factor := 1 - degradation_rate
      let lifetime_generation_kwh :=
        lifetime_generation lifetime_years.toNat annual_generation_kwh
          degradation_factor
      let lifetime_avoided_kg := lifetime_generation_kwh * carbon_factor
      let inverter_lifetime := r.inverter_lifetime_years.getD 0
      let inverter_replacements : ℤ :=
        if 0 < inverter_lifetime then (lifetime_years - 1) / inverter_lifetime
        else 0
      let inverter_factor := r.inverter_embodied_kgCO2e_per_kwp.getD 0
      let inverter_emissions_kg :=
        (inverter_replacements : ℚ) * inverter_factor * capacity_kwp
      let additional_percent :=
        r.additional_replacement_percent_of_embodied.getD 0
      let additional_emissions_kg :=
        embodied_carbon_kgCO2e * (additional_percent / 100)
      let total_replacement_kg := inverter_emissions_kg + additional_emissions_kg
      { system_lifetime_years := lifetime_years,
        module_degradation_rate_pct_per_year :=
          r.module_degradation_rate_pct_per_year,
        lifetime_generation_kwh := roundTo 1 lifetime_generation_kwh,
        lifetime_avoided_kgCO2e := roundTo 1 lifetime_avoided_kg,
        lifetime_avoided_tonnesCO2e := roundTo 3 (lifetime_avoided_kg / 1000),
        average_annual_generation_kwh :=
          roundTo 1 (lifetime_generation_kwh / (lifetime_years : ℚ)),
        inverter_lifetime_years := inverter_lifetime,
        inverter_replacements := inverter_replacements,
        inverter_emissions_kgCO2e := roundTo 2 inverter_emissions_kg,
        additional_replacement_percent_of_embodied := additional_percent,
        additional_replacement_emissions_kgCO2e :=
          roundTo 2 additional_emissions_kg,
        total_kgCO2e := roundTo 2 total_replacement_kg,
        total_tonnesCO2e := roundTo 3 (total_replacement_kg / 1000),
        note := none }

/-- main.ConstructionInput pydantic model with its defaults. The
`equipment_usage` list of dicts is modelled directly as EquipmentUsage
records (main.calculate converts each dict with
`eq.get("equipment_type", "")` / `eq.get("hours", 0.0)`). -/
structure ConstructionInput where
  method : String := "simple"
  percentage : Option ℚ := some 5
  equipment_usage : Option (List EquipmentUsage) := none
  worker_transport_km : Option ℚ := none
  num_workers : Option ℤ := none
  num_days : Option ℤ := none
  grid_electricity_kwh : Option ℚ := none
deriving DecidableEq, Repr

/-- main.calculate_construction_emissions: dispatch on the method string,
with the zero-total fallback for any unrecognised method. -/
def calculate_construction_emissions
    (construction_input : Option ConstructionInput)
    (embodied_carbon_kgCO2e : ℚ) (grid_carbon_factor : Option ℚ) :
    ConstructionResult :=
  match construction_input with
  | none => calculate_construction_simple embodied_carbon_kgCO2e 5
  | some ci =>
      if ci.method = "simple" then
        calculate_construction_simple embodied_carbon_kgCO2e
          (pyOrQ ci.percentage 5)
      else if ci.method = "detailed" then
        calculate_construction_detailed (ci.equipment_usage.getD [])
          ci.worker_transport_km ci.num_workers ci.num_days
          ci.grid_electricity_kwh grid_carbon_factor
      else
        { method := none, total_kgCO2e := 0, total_tonnesCO2e := 0,
          breakdown := [], assumptions := none,
          note := some "Invalid construction method" }

/-- main.SolarInput pydantic model (location, PV system, optional stage
inputs, factor override). -/
structure SolarInput where
  postcode : Option String := none
  latitude : Option ℚ := none
  longitude : Option ℚ := none
  year : ℤ
  area_m2 : ℚ
  module_efficiency : ℚ
  surface_tilt : ℤ := 30
  surface_azimuth : ℤ := 180
  materials : Option MaterialQuantities := none
  transport : Option (List TransportLeg) := none
  construction : Option ConstructionInput := none
  carbon_factor_override : Option ℚ := none
  country_code : String := "GBR"

/-- main.get_coordinates. The postcodes.io HTTP lookup is abstracted as a
resolver function; an empty postcode string is falsy in Python, so it falls
through to the must-provide error. -/
def get_coordinates (resolver : String → Option (ℚ × ℚ))
    (postcode : Option String) (lat lon : Option ℚ) :
    Except CalcError (ℚ × ℚ) :=
  match lat, lon with
  | some la, some lo => .ok (la, lo)
  | _, _ =>
      match postcode with
      | some pc =>
          if pc = "" then .error .missingLocation
          else
            match resolver pc with
            | some c => .ok c
            | none => .error .invalidPostcode
      | none => .error .missingLocation

/-- Per-timestep PV generation of main.calculate:
`(area_m2 * irr/1000 * module_efficiency).clip(lower=0)`. -/
def pv_hour_kwh (area_m2 module_efficiency irr : ℚ) : ℚ :=
  max 0 (area_m2 * (irr / 1000) * module_efficiency)

/-- Annual PV generation: the sum of clipped hourly generation over the
irradiance series (each sample tagged with its calendar month 1-12). -/
def annual_total_kwh (area_m2 module_efficiency : ℚ)
    (hours : List (ℕ × ℚ)) : ℚ :=
  (hours.map (fun h => pv_hour_kwh area_m2 module_efficiency h.2)).sum

/-- Monthly generation: hourly generation grouped by calendar month. -/
def monthly_kwh (area_m2 module_efficiency : ℚ)
    (hours : List (ℕ × ℚ)) : List (ℕ × ℚ) :=
  (List.range 12).map (fun i =>
    (i + 1,
     ((hours.filter (fun h => h.1 = i + 1)).map
        (fun h => pv_hour_kwh area_m2 module_efficiency h.2)).sum))

/-- Operational (B6) block of the response of main.calculate. -/
structure OperationalResult where
  annual_generation_kwh : ℚ
  annual_avoided_kgCO2e : ℚ
  annual_avoided_tonnesCO2e : ℚ
  monthly_kwh : List (ℕ × ℚ)
deriving DecidableEq, Repr

/-- Assumptions block of the response of main.calculate. -/
structure Assumptions where
  area_m2 : ℚ
  module_efficiency : ℚ
  equivalent_capacity_kwp : ℚ
  carbon_factor_kgCO2e_per_kwh : ℚ
  carbon_factor_source : String
  carbon_factor_year : ℤ
  carbon_factor_region : String
deriving DecidableEq, Repr

/-- The response dict of main.calculate. The legacy top-level duplicates
(annual_kwh, annual_avoided_kgCO2e, ...) repeat fields of `operational`
verbatim; `annual_kwh` and `equivalent_capacity_kwp` are kept. There is no
replacement stage in the response: main.calculate never invokes
calculate_replacement_emissions. -/
structure Report where
  location : ℚ × ℚ
  operational : OperationalResult
  embodied : EmbodiedResult
  transport : TransportResult
  construction : ConstructionResult
  annual_kwh : ℚ
  equivalent_capacity_kwp : ℚ
  assumptions : Assumptions
deriving DecidableEq, Repr

/-- main.calculate, the POST /calculate handler. The PVGIS hourly series
(an external fetch) is abstracted as the `hours` list of
(calendar month, irradiance Wh/m2) samples - the `G(h)` column path; the
OWID table and the postcode resolver are abstracted as lookup functions.
Any exception escaping a step aborts the whole handler, which is modelled
by the Except short-circuit. -/
def calculate (gridTable : String → ℤ → Option ℚ) (hours : List (ℕ × ℚ))
    (postcodeResolver : String → Option (ℚ × ℚ)) (input : SolarInput) :
    Except CalcError Report := do
  let coords ← get_coordinates postcodeResolver input.postcode
    input.latitude input.longitude
  let ef ← get_grid_electricity_factor gridTable input.country_code input.year
    input.carbon_factor_override
    (if input.carbon_factor_override.isSome
     then some "User override (API request)" else none)
  let carbon_factor := ef.value
  let annual := annual_total_kwh input.area_m2 input.module_efficiency hours
  let avoided_total_kg := annual * carbon_factor
  let capacity_kwp := input.area_m2 * input.module_efficiency
  let embodied_carbon := calculate_embodied_carbon input.materials
  let transport_emissions :=
    match input.transport with
    | some legs =>
        if legs.length > 0 then calculate_transport_emissions legs none
        else { total_kgCO2e := 0, total_tonnesCO2e := 0, breakdown := [],
               note := some "No transport legs provided" }
    | none =>
        { total_kgCO2e := 0, total_tonnesCO2e := 0, breakdown := [],
          note := some "No transport legs provided" }
  let construction_emissions :=
    calculate_construction_emissions input.construction
      embodied_carbon.total_kgCO2e (some carbon_factor)
  return {
      location := coords,
      operational :=
        { annual_generation_kwh := roundTo 1 annual,
          annual_avoided_kgCO2e := roundTo 1 avoided_total_kg,
          annual_avoided_tonnesCO2e := roundTo 3 (avoided_total_kg / 1000),
          monthly_kwh := monthly_kwh input.area_m2 input.module_efficiency hours },
      embodied := embodied_carbon,
      transport := transport_emissions,
      construction := construction_emissions,
      annual_kwh := roundTo 1 annual,
      equivalent_capacity_kwp := roundTo 3 capacity_kwp,
      assumptions :=
        { area_m2 := input.area_m2,
          module_efficiency := input.module_efficiency,
          equivalent_capacity_kwp := roundTo 3 capacity_kwp,
          carbon_factor_kgCO2e_per_kwh := carbon_factor,
          carbon_factor_source := ef.source,
          carbon_factor_year := ef.year,
          carbon_factor_region := ef.region } }

/-- The default ship_container entry of TRANSPORT_EMISSION_FACTORS. -/
def shipContainerFactor : TransportEmissionFactor :=
  { mode := "Container ship", value := 0.00631, unit := "kgCO2e/tkm",
    source := "UK Government GHG Conversion Factors 2024 (DESNZ)",
    notes := some "Large container ship. Very efficient per tkm." }

/-- Concrete request used to exercise the rounded embodied total feeding the
construction stage: 0.001 kg of aluminium (exact embodied total 0.0131
kgCO2e, display-rounded to 0.01) and a simple-method percentage large
enough for the difference to survive display rounding. -/
def c1Input : SolarInput :=
  { latitude := some 50, longitude := some 0, year := 2023,
    area_m2 := 10, module_efficiency := 0.2,
    materials := some { aluminium_kg := 0.001 },
    construction := some { method := "simple", percentage := some 100000 },
    carbon_factor_override := some 0.2 }

/-- Concrete request whose grid-factor lookup fails: no override and a
country/year pair absent from the table. -/
def c2Input : SolarInput :=
  { latitude := some 50, longitude := some 0, year := 1800,
    area_m2 := 10, module_efficiency := 0.2, country_code := "XXX" }

/-- Concrete request with a detailed construction stage using on-site grid
electricity and an operational carbon factor override of 0 (a value the
Python `or` in the detailed calculator treats as falsy). -/
def c6Input : SolarInput :=
  { latitude := some 50, longitude := some 0, year := 2023,
    area_m2 := 10, module_efficiency := 0.2,
    construction := some { method := "detailed",
                           grid_electricity_kwh := some 100 },
    carbon_factor_override := some 0 }

/-- Replacement request with a negative degradation rate. -/
def c7Ri : ReplacementInput :=
  { module_degradation_rate_pct_per_year := -5 }

/-- Replacement request with the spec example values: 25-year lifetime,
0.5 %/year degradation. These are exactly the pydantic defaults. -/
def c8Ri : ReplacementInput := {}

/-- Material quantities with both a resolvable material (aluminium) and a
zero-valued placeholder material (glass). -/
def c5M : MaterialQuantities := { aluminium_kg := 1, glass_kg := 2 }

/-! Helper lemmas: rounding error bounds, the degradation loop as a finite
sum, concrete resolver evaluations, and the embodied/transport loop laws. -/

theorem abs_roundHalfEven_sub_le (x : ℚ) : |(roundHalfEven x : ℚ) - x| ≤ 1 / 2 := by
  have h0 : (⌊x⌋ : ℚ) ≤ x := Int.floor_le x
  have h1 : x < (⌊x⌋ : ℚ) + 1 := Int.lt_floor_add_one x
  unfold roundHalfEven
  split_ifs with hlt hgt heven
  · rw [abs_sub_comm, abs_of_nonneg (by linarith)]
    linarith
  · rw [abs_of_nonneg (by push_cast; linarith)]
    push_cast
    linarith
  · rw [abs_sub_comm, abs_of_nonneg (by linarith)]
    linarith
  · rw [abs_of_nonneg (by push_cast; linarith)]
    push_cast
    linarith

theorem abs_roundTo_sub_le (n : ℕ) (x : ℚ) :
    |roundTo n x - x| ≤ 1 / (2 * 10 ^ n) := by
  have h10 : (0:ℚ) < 10 ^ n := by positivity
  have hb := abs_roundHalfEven_sub_le (x * 10 ^ n)
  have hrw : roundTo n x - x
      = ((roundHalfEven (x * 10 ^ n) : ℚ) - x * 10 ^ n) / 10 ^ n := by
    unfold roundTo
    field_simp
    ring
  rw [hrw, abs_div, abs_of_pos h10]
  rw [div_le_div_iff₀ h10 (by positivity)]
  calc |(roundHalfEven (x * 10 ^ n) : ℚ) - x * 10 ^ n| * (2 * 10 ^ n)
      ≤ (1 / 2) * (2 * 10 ^ n) := by
        apply mul_le_mul_of_nonneg_right hb (by positivity)
    _ = 1 * 10 ^ n := by ring

/-- The two display roundings of one exact stage total (kg to 2 decimals,
kg/1000 to 3 decimals) agree to within 0.000505. -/
theorem roundPair_close (t : ℚ) :
    |roundTo 3 (t / 1000) - roundTo 2 t / 1000| ≤ 101 / 200000 := by
  have h1 := abs_roundTo_sub_le 3 (t / 1000)
  have h2 := abs_roundTo_sub_le 2 t
  have key : |t / 1000 - roundTo 2 t / 1000| ≤ 1 / 200000 := by
    have hrw : t / 1000 - roundTo 2 t / 1000 = -((roundTo 2 t - t)) / 1000 := by ring
    rw [hrw, abs_div, abs_neg, abs_of_pos (by norm_num : (0:ℚ) < 1000)]
    rw [div_le_div_iff₀ (by norm_num : (0:ℚ) < 1000) (by norm_num : (0:ℚ) < 200000)]
    nlinarith [h2]
  calc |roundTo 3 (t / 1000) - roundTo 2 t / 1000|
      ≤ |roundTo 3 (t / 1000) - t / 1000| + |t / 1000 - roundTo 2 t / 1000| :=
        abs_sub_le _ _ _
    _ ≤ 1 / (2 * 10 ^ 3) + 1 / 200000 := add_le_add h1 key
    _ ≤ 101 / 200000 := by norm_num

theorem lifetime_generation_eq_sum (n : ℕ) (a f : ℚ) :
    lifetime_generation n a f = ∑ i ∈ Finset.range n, a * f ^ i := by
  induction n with
  | zero => simp [lifetime_generation]
  | succ n ih =>
      unfold lifetime_generation at ih ⊢
      rw [List.range_succ, List.foldl_append, ih, Finset.sum_range_succ]
      simp

theorem lifetime_generation_const (n : ℕ) (a : ℚ) :
    lifetime_generation n a 1 = n * a := by
  rw [lifetime_generation_eq_sum]
  simp [mul_comm]

theorem gmf_aluminium : get_material_factor "aluminium" none none none =
    .ok { material := "Aluminium, General worldwide (PV module frames / rails)",
          value := 13.1, unit := "kgCO2e/kg",
          source := "ICE Database v4.1 (mean of aluminium profiles)",
          notes := some "Generic primary aluminium" } := by decide

theorem gmf_glass : get_material_factor "glass" none none none =
    .error (.notPopulated "glass") := by decide

theorem gmf_silicon_pv : get_material_factor "silicon_pv" none none none =
    .error (.notPopulated "silicon_pv") := by decide

theorem gmf_copper : get_material_factor "copper" none none none =
    .error (.notPopulated "copper") := by decide

theorem contribution_aluminium (q : ℚ) :
    embodied_contribution "aluminium" q = q * 13.1 := by
  unfold embodied_contribution
  rw [gmf_aluminium]

theorem contribution_steel (q : ℚ) :
    embodied_contribution "steel" q = q * 1.64 := by
  unfold embodied_contribution
  rw [show get_material_factor "steel" none none none =
      .ok { material := "Steel (PV mounting structures)", value := 1.64,
            unit := "kgCO2e/kg",
            source := "ICE Database v4.1 (mean structural steel)",
            notes := some "Generic hot-rolled engineering steel" } from by decide]

theorem contribution_concrete (q : ℚ) :
    embodied_contribution "concrete" q = q * 0.134 := by
  unfold embodied_contribution
  rw [show get_material_factor "concrete" none none none =
      .ok { material := "Concrete 32/40 MPa (PV foundations / ballast)",
            value := 0.134, unit := "kgCO2e/kg",
            source := "ICE Database v4.1 (mean ready-mix concrete)",
            notes := some "Highly mix-dependent" } from by decide]

theorem contribution_glass (q : ℚ) : embodied_contribution "glass" q = 0 := by
  unfold embodied_contribution
  rw [gmf_glass]

theorem contribution_silicon_pv (q : ℚ) :
    embodied_contribution "silicon_pv" q = 0 := by
  unfold embodied_contribution
  rw [gmf_silicon_pv]

theorem contribution_copper (q : ℚ) : embodied_contribution "copper" q = 0 := by
  unfold embodied_contribution
  rw [gmf_copper]

/-- The exact embodied total only ever sums the three resolvable materials;
the zero-valued placeholders contribute nothing. -/
theorem embodied_total_formula (m : MaterialQuantities) :
    embodied_total_exact m =
      (if 0 < m.aluminium_kg then m.aluminium_kg * 13.1 else 0)
        + (if 0 < m.steel_kg then m.steel_kg * 1.64 else 0)
        + (if 0 < m.concrete_kg then m.concrete_kg * 0.134 else 0) := by
  simp only [embodied_total_exact, material_map, embodied_total_list,
    contribution_aluminium, contribution_steel, contribution_concrete,
    contribution_glass, contribution_silicon_pv, contribution_copper,
    ite_self, add_zero]
  ring

/-- The reported embodied total is the display rounding of the exact one. -/
theorem embodied_total_rounded (o : Option MaterialQuantities) :
    (calculate_embodied_carbon o).total_kgCO2e
      = roundTo 2 (embodied_total_exactOpt o) := by
  cases o with
  | none => decide
  | some m => rfl

theorem transport_item_ok (i : ℕ) (leg : TransportLeg)
    (f : TransportEmissionFactor)
    (h : get_transport_factor leg.mode none none = .ok f) :
    transport_item none i leg =
      .ok (i + 1) f.mode leg.mass_tonnes leg.distance_km
        (roundTo 2 (leg.mass_tonnes * leg.distance_km)) f.value
        (roundTo 2 (leg.mass_tonnes * leg.distance_km * f.value)) f.source := by
  simp only [transport_item, h]

theorem transport_single_total (mo : String) (d m : ℚ)
    (f : TransportEmissionFactor)
    (h : get_transport_factor mo none none = .ok f) :
    transport_total_exact none
      [{ mode := mo, distance_km := d, mass_tonnes := m }] = m * d * f.value := by
  simp only [transport_total_exact, transport_contribution, h, add_zero]

/-- A truthy grid_electricity_kwh always yields exactly one grid activity,
whose factor is the Python `or` of the supplied factor and 0.234. -/
theorem detailed_grid_entry (gk gf : Option ℚ) (kwh : ℚ) (hk : kwh ≠ 0)
    (hgk : gk = some kwh) :
    detailed_grid_part gk gf =
      (kwh * pyOrQ gf 0.234,
       [{ activity := "Grid electricity on site",
          emissions_kgCO2e := roundTo 2 (kwh * pyOrQ gf 0.234),
          description := .gridUse kwh (pyOrQ gf 0.234),
          source := "UK Government GHG Conversion Factors 2024" }]) := by
  subst hgk
  simp only [detailed_grid_part, pyTruthyQ]
  rw [if_pos (by simpa using hk)]
  rfl

/-! Claims. -/

set_option maxRecDepth 100000 in
/-- C1 counterexample: in the concrete request c1Input (0.001 kg aluminium,
exact embodied total 0.0131 kgCO2e, simple method at percentage 100000) the
construction stage totals 10.0 kgCO2e, computed from the display-rounded
embodied feed 0.01, while the exact unrounded feed prescribed by the claim
would give 13.1 - so the stage total fed downstream is not the exact sum. -/
theorem C1_counterexample :
    (calculate (fun _ _ => none) [] (fun _ => none) c1Input).map
        (fun r => r.construction.total_kgCO2e) = .ok 10
    ∧ roundTo 2 (embodied_total_exactOpt c1Input.materials * (100000 / 100)) = 13.1
    ∧ (10 : ℚ) ≠ 13.1 := by decide

/-- C1 amended: the embodied total is rounded to 2 decimals before it feeds
the construction A5 stage, so whenever the handler succeeds with a
simple-method construction input, the construction total equals
round(round(embodied_exact, 2) x percentage / 100, 2). -/
theorem C1_amended (gt : String → ℤ → Option ℚ) (hours : List (ℕ × ℚ))
    (pr : String → Option (ℚ × ℚ)) (inp : SolarInput) (ci : ConstructionInput)
    (h1 : inp.construction = some ci) (h2 : ci.method = "simple") :
    (calculate gt hours pr inp).map (fun r => r.construction.total_kgCO2e)
      = (calculate gt hours pr inp).map (fun _ =>
          roundTo 2 (roundTo 2 (embodied_total_exactOpt inp.materials)
            * (pyOrQ ci.percentage 5 / 100))) := by
  unfold calculate
  cases hc : get_coordinates pr inp.postcode inp.latitude inp.longitude with
  | error e => rfl
  | ok c =>
    cases hg : get_grid_electricity_factor gt inp.country_code inp.year
        inp.carbon_factor_override
        (if inp.carbon_factor_override.isSome
         then some "User override (API request)" else none) with
    | error e => rfl
    | ok ef =>
      refine congrArg Except.ok ?_
      show (calculate_construction_emissions inp.construction
          (calculate_embodied_carbon inp.materials).total_kgCO2e
          (some ef.value)).total_kgCO2e = _
      rw [h1]
      simp only [calculate_construction_emissions, if_pos h2,
        calculate_construction_simple, embodied_total_rounded]

/-- C1 amended witness at the concrete request c1Input. -/
theorem C1_amended_witness :
    c1Input.construction = some { method := "simple", percentage := some 100000 }
    ∧ ({ method := "simple", percentage := some 100000 } : ConstructionInput).method
        = "simple"
    ∧ (calculate (fun _ _ => none) [] (fun _ => none) c1Input).map
          (fun r => r.construction.total_kgCO2e)
        = (calculate (fun _ _ => none) [] (fun _ => none) c1Input).map (fun _ =>
            roundTo 2 (roundTo 2 (embodied_total_exactOpt c1Input.materials)
              * (pyOrQ ({ method := "simple", percentage := some 100000 } :
                  ConstructionInput).percentage 5 / 100))) :=
  ⟨rfl, rfl,
   C1_amended (fun _ _ => none) [] (fun _ => none) c1Input
     { method := "simple", percentage := some 100000 } rfl rfl⟩

set_option maxRecDepth 100000 in
/-- C2 counterexample: with no override and a country/year pair absent from
the grid table, the handler returns an error and no report at all - the
embodied, transport and construction stage results are not returned. -/
theorem C2_counterexample :
    calculate (fun _ _ => none) [] (fun _ => none) c2Input
      = .error (.noGridFactor "XXX" 1800) := by decide

/-- C2 amended: when the grid-electricity lookup finds no entry for the
requested country and year and no override is supplied, the uncaught
exception aborts the entire calculation: the handler propagates the error
instead of returning the other stage results. -/
theorem C2_amended (gt : String → ℤ → Option ℚ) (hours : List (ℕ × ℚ))
    (pr : String → Option (ℚ × ℚ)) (inp : SolarInput) (la lo : ℚ)
    (h1 : inp.latitude = some la) (h2 : inp.longitude = some lo)
    (h3 : gt inp.country_code inp.year = none)
    (h4 : inp.carbon_factor_override = none) :
    calculate gt hours pr inp
      = .error (.noGridFactor inp.country_code inp.year) := by
  unfold calculate
  rw [h1, h2, h4]
  simp only [get_coordinates, get_grid_electricity_factor, h3, Option.isSome_none]
  rfl

/-- C2 amended witness at the concrete request c2Input. -/
theorem C2_amended_witness :
    c2Input.latitude = some 50 ∧ c2Input.longitude = some 0
    ∧ (fun (_ : String) (_ : ℤ) => (none : Option ℚ)) c2Input.country_code
        c2Input.year = none
    ∧ c2Input.carbon_factor_override = none
    ∧ calculate (fun _ _ => none) [] (fun _ => none) c2Input
        = .error (.noGridFactor c2Input.country_code c2Input.year) :=
  ⟨rfl, rfl, rfl, rfl,
   C2_amended (fun _ _ => none) [] (fun _ => none) c2Input 50 0 rfl rfl rfl rfl⟩

set_option maxRecDepth 10000 in
/-- C3 counterexample: for a 1 t x 100 km articulated-truck leg the reported
tonnes total (0.006) does not equal the reported kg total divided by 1000
(0.00629), because the two fields are rounded at different precisions. -/
theorem C3_counterexample :
    (calculate_transport_emissions
        [{ mode := "truck_articulated", distance_km := 100, mass_tonnes := 1 }]
        none).total_tonnesCO2e
      ≠ (calculate_transport_emissions
          [{ mode := "truck_articulated", distance_km := 100, mass_tonnes := 1 }]
          none).total_kgCO2e / 1000 := by decide

/-- C3 amended: for every calculator, total_kgCO2e and total_tonnesCO2e are
the 2- and 3-decimal roundings of one exact total, so the reported tonnes
equal the reported kg / 1000 only to within 101/200000 = 0.000505, not
exactly. -/
theorem C3_amended :
    (∀ (legs : List TransportLeg) (cf : Option (String → Option ℚ)),
        |(calculate_transport_emissions legs cf).total_tonnesCO2e
          - (calculate_transport_emissions legs cf).total_kgCO2e / 1000|
          ≤ 101 / 200000)
    ∧ (∀ o : Option MaterialQuantities,
        |(calculate_embodied_carbon o).total_tonnesCO2e
          - (calculate_embodied_carbon o).total_kgCO2e / 1000| ≤ 101 / 200000)
    ∧ (∀ e p : ℚ,
        |(calculate_construction_simple e p).total_tonnesCO2e
          - (calculate_construction_simple e p).total_kgCO2e / 1000| ≤ 101 / 200000)
    ∧ (∀ (eqs : List EquipmentUsage) (wk : Option ℚ) (nw nd : Option ℤ)
          (gk gf : Option ℚ),
        |(calculate_construction_detailed eqs wk nw nd gk gf).total_tonnesCO2e
          - (calculate_construction_detailed eqs wk nw nd gk gf).total_kgCO2e / 1000|
          ≤ 101 / 200000)
    ∧ (∀ (ri : Option ReplacementInput) (cap gen emb cfq : ℚ),
        |(calculate_replacement_emissions ri cap gen emb cfq).total_tonnesCO2e
          - (calculate_replacement_emissions ri cap gen emb cfq).total_kgCO2e / 1000|
          ≤ 101 / 200000) := by
  refine ⟨fun legs cf => roundPair_close _, ?_, fun e p => roundPair_close _,
    fun eqs wk nw nd gk gf => roundPair_close _, ?_⟩
  · intro o
    cases o with
    | none => norm_num [calculate_embodied_carbon]
    | some m => exact roundPair_close _
  · intro ri cap gen emb cfq
    cases ri with
    | none => norm_num [calculate_replacement_emissions]
    | some r => exact roundPair_close _

/-- C4: a non-null override_value always wins in every resolver: the result
is the override-built factor with the override source (or the fixed default
when the source is null or empty), built without consulting any table and
never failing; the grid resolver result does not depend on the table. -/
theorem C4_amended :
    (∀ (t : String → ℤ → Option ℚ) (c : String) (y : ℤ) (v : ℚ) (os : Option String),
        get_grid_electricity_factor t c y (some v) os =
          .ok { value := v, unit := "kgCO2e/kWh",
                source := pyOrStr os "User override", year := y, region := c,
                notes := some "User-supplied value overrides database" })
    ∧ (∀ (k : String) (v : ℚ) (ou os : Option String),
        get_material_factor k (some v) ou os =
          .ok { material := lowerString k, value := v,
                unit := pyOrStr ou "kgCO2e/kg",
                source := pyOrStr os "User override",
                notes := some "User-supplied value overrides simplified ICE reference" })
    ∧ (∀ (mo : String) (v : ℚ) (os : Option String),
        get_transport_factor mo (some v) os =
          .ok { mode := mo, value := v, unit := "kgCO2e/tkm",
                source := pyOrStr os "User override",
                notes := some "User-supplied transport emission factor" })
    ∧ (∀ (t₁ t₂ : String → ℤ → Option ℚ) (c : String) (y : ℤ) (v : ℚ)
          (os : Option String),
        get_grid_electricity_factor t₁ c y (some v) os
          = get_grid_electricity_factor t₂ c y (some v) os) :=
  ⟨fun _ _ _ _ _ => rfl, fun _ _ _ _ => rfl, fun _ _ _ => rfl,
   fun _ _ _ _ _ _ => rfl⟩

/-- C4 counterexample: an empty-string override_source is non-null, yet the
resolver substitutes the fixed "User override" default, because Python `or`
also treats the empty string as falsy. -/
theorem C4_counterexample :
    (get_material_factor "steel" (some 5) none (some "")).map (fun f => f.source)
        = .ok "User override"
    ∧ "User override" ≠ "" := by decide

/-- C5: requesting a zero-valued placeholder material (glass) produces a
per-item error entry in the glass slot of the breakdown; a resolvable
material (aluminium) in the same request still gets its success entry; the
exact stage total sums only the successfully resolved materials (the
placeholders glass, silicon_pv, copper contribute nothing), and the
reported total is its rounding. -/
theorem C5 (m : MaterialQuantities) (hg : 0 < m.glass_kg)
    (ha : 0 < m.aluminium_kg) :
    ("glass", MaterialItem.err m.glass_kg (CalcError.notPopulated "glass"))
        ∈ (calculate_embodied_carbon (some m)).breakdown
    ∧ ("aluminium", MaterialItem.ok m.aluminium_kg 13.1
          (roundTo 2 (m.aluminium_kg * 13.1))
          (roundTo 3 (m.aluminium_kg * 13.1 / 1000))
          "ICE Database v4.1 (mean of aluminium profiles)")
        ∈ (calculate_embodied_carbon (some m)).breakdown
    ∧ embodied_total_exact m =
        (if 0 < m.aluminium_kg then m.aluminium_kg * 13.1 else 0)
          + (if 0 < m.steel_kg then m.steel_kg * 1.64 else 0)
          + (if 0 < m.concrete_kg then m.concrete_kg * 0.134 else 0)
    ∧ (calculate_embodied_carbon (some m)).total_kgCO2e
        = roundTo 2 (embodied_total_exact m) := by
  refine ⟨?_, ?_, embodied_total_formula m, rfl⟩
  · show _ ∈ embodied_breakdown m
    unfold embodied_breakdown
    apply List.mem_map.mpr
    refine ⟨("glass", m.glass_kg),
      List.mem_filter.mpr ⟨by simp [material_map], by simpa using hg⟩, ?_⟩
    simp only [material_entry, gmf_glass]
  · show _ ∈ embodied_breakdown m
    unfold embodied_breakdown
    apply List.mem_map.mpr
    refine ⟨("aluminium", m.aluminium_kg),
      List.mem_filter.mpr ⟨by simp [material_map], by simpa using ha⟩, ?_⟩
    simp only [material_entry, gmf_aluminium]

/-- C5 witness at the concrete quantities c5M. -/
theorem C5_witness :
    (0 : ℚ) < c5M.glass_kg ∧ (0 : ℚ) < c5M.aluminium_kg ∧
    (("glass", MaterialItem.err c5M.glass_kg (CalcError.notPopulated "glass"))
        ∈ (calculate_embodied_carbon (some c5M)).breakdown
    ∧ ("aluminium", MaterialItem.ok c5M.aluminium_kg 13.1
          (roundTo 2 (c5M.aluminium_kg * 13.1))
          (roundTo 3 (c5M.aluminium_kg * 13.1 / 1000))
          "ICE Database v4.1 (mean of aluminium profiles)")
        ∈ (calculate_embodied_carbon (some c5M)).breakdown
    ∧ embodied_total_exact c5M =
        (if 0 < c5M.aluminium_kg then c5M.aluminium_kg * 13.1 else 0)
          + (if 0 < c5M.steel_kg then c5M.steel_kg * 1.64 else 0)
          + (if 0 < c5M.concrete_kg then c5M.concrete_kg * 0.134 else 0)
    ∧ (calculate_embodied_carbon (some c5M)).total_kgCO2e
        = roundTo 2 (embodied_total_exact c5M)) :=
  ⟨by decide, by decide, C5 c5M (by decide) (by decide)⟩

/-- C6: in the detailed construction method the on-site electricity factor
is the supplied nonzero grid_carbon_factor, or 0.234 when none is supplied;
and there is a request (c6Input, operational factor resolved to 0 from its
override, with on-site grid electricity and no user-suppliable construction
grid factor field in the API) whose construction breakdown applies 0.234,
different from the operational-stage resolved factor 0. -/
theorem C6 :
    (∀ (eqs : List EquipmentUsage) (wk : Option ℚ) (nw nd : Option ℤ)
        (kwh v : ℚ), kwh ≠ 0 → v ≠ 0 →
        ({ activity := "Grid electricity on site",
           emissions_kgCO2e := roundTo 2 (kwh * v),
           description := .gridUse kwh v,
           source := "UK Government GHG Conversion Factors 2024" } : ConstructionActivity)
          ∈ (calculate_construction_detailed eqs wk nw nd (some kwh) (some v)).breakdown)
    ∧ (∀ (eqs : List EquipmentUsage) (wk : Option ℚ) (nw nd : Option ℤ)
          (kwh : ℚ), kwh ≠ 0 →
        ({ activity := "Grid electricity on site",
           emissions_kgCO2e := roundTo 2 (kwh * 0.234),
           description := .gridUse kwh 0.234,
           source := "UK Government GHG Conversion Factors 2024" } : ConstructionActivity)
          ∈ (calculate_construction_detailed eqs wk nw nd (some kwh) none).breakdown)
    ∧ ((calculate (fun _ _ => none) [] (fun _ => none) c6Input).map
          (fun r => (r.assumptions.carbon_factor_kgCO2e_per_kwh,
                     r.construction.breakdown))
        = .ok (0, [{ activity := "Grid electricity on site",
                     emissions_kgCO2e := 23.4,
                     description := .gridUse 100 0.234,
                     source := "UK Government GHG Conversion Factors 2024" }])
        ∧ (0.234 : ℚ) ≠ 0) := by
  refine ⟨?_, ?_, by decide, by norm_num⟩
  · intro eqs wk nw nd kwh v hk hv
    show _ ∈ (calculate_construction_detailed eqs wk nw nd (some kwh) (some v)).breakdown
    have hgrid := detailed_grid_entry (some kwh) (some v) kwh hk rfl
    have hv' : pyOrQ (some v) 0.234 = v := by simp [pyOrQ, hv]
    rw [hv'] at hgrid
    simp only [calculate_construction_detailed, hgrid, List.mem_append,
      List.mem_singleton]
    right
    trivial
  · intro eqs wk nw nd kwh hk
    have hgrid := detailed_grid_entry (some kwh) none kwh hk rfl
    have hn : pyOrQ none 0.234 = 0.234 := rfl
    rw [hn] at hgrid
    simp only [calculate_construction_detailed, hgrid, List.mem_append,
      List.mem_singleton]
    right
    trivial

/-- C6 witness: a concrete supplied nonzero factor is applied verbatim. -/
theorem C6_witness :
    ((7 : ℚ) ≠ 0) ∧ ((0.5 : ℚ) ≠ 0) ∧
    ({ activity := "Grid electricity on site",
       emissions_kgCO2e := roundTo 2 (7 * 0.5),
       description := .gridUse 7 0.5,
       source := "UK Government GHG Conversion Factors 2024" } : ConstructionActivity)
      ∈ (calculate_construction_detailed [] none none none (some 7) (some 0.5)).breakdown :=
  ⟨by norm_num, by norm_num,
   C6.1 [] none none none 7 0.5 (by norm_num) (by norm_num)⟩

set_option maxRecDepth 100000 in
/-- C7 counterexample: a -50 t ship leg computes successfully, folding
-2524 kgCO2e into the stage total with a plain success breakdown entry, and
a -5 %/year degradation rate is silently clamped (lifetime generation equals
the undegraded 25000 kWh) with no error reported - neither input raises
InvalidInput. -/
theorem C7_counterexample :
    calculate_transport_emissions
        [{ mode := "ship_container", distance_km := 8000, mass_tonnes := -50 }]
        none =
      { total_kgCO2e := -2524, total_tonnesCO2e := -2.524,
        breakdown := [.ok 1 "Container ship" (-50) 8000 (-400000) 0.00631 (-2524)
          "UK Government GHG Conversion Factors 2024 (DESNZ)"],
        note := none }
    ∧ (calculate_replacement_emissions (some c7Ri) 10 1000 0 0.2).lifetime_generation_kwh
        = 25000
    ∧ (calculate_replacement_emissions (some c7Ri) 10 1000 0 0.2).note = none := by
  decide

/-- C7 amended: out-of-range fields are not rejected: a negative transport
mass yields a negative stage contribution with a normal success entry, and a
negative degradation rate is clamped to zero so the lifetime generation is
the undegraded lifetime x annual product. -/
theorem C7_amended :
    (∀ (mo : String) (d m : ℚ) (f : TransportEmissionFactor),
        get_transport_factor mo none none = .ok f → m < 0 → 0 < d → 0 < f.value →
        transport_total_exact none
            [{ mode := mo, distance_km := d, mass_tonnes := m }] < 0
        ∧ (calculate_transport_emissions
              [{ mode := mo, distance_km := d, mass_tonnes := m }] none).breakdown
            = [.ok 1 f.mode m d (roundTo 2 (m * d)) f.value
                (roundTo 2 (m * d * f.value)) f.source])
    ∧ (∀ (ri : ReplacementInput) (cap gen emb cfq : ℚ),
        ri.module_degradation_rate_pct_per_year < 0 →
        (calculate_replacement_emissions (some ri) cap gen emb cfq).lifetime_generation_kwh
          = roundTo 1 (((max 1 ri.system_lifetime_years : ℤ) : ℚ) * gen)) := by
  constructor
  · intro mo d m f h hm hd hf
    constructor
    · rw [transport_single_total mo d m f h]
      have : m * d < 0 := mul_neg_of_neg_of_pos hm hd
      exact mul_neg_of_neg_of_pos this hf
    · show transport_breakdown none 0 _ = _
      rw [show transport_breakdown none 0
            [{ mode := mo, distance_km := d, mass_tonnes := m }]
          = [transport_item none 0 { mode := mo, distance_km := d, mass_tonnes := m }]
          from rfl]
      rw [transport_item_ok 0 _ f h]
  · intro ri cap gen emb cfq hneg
    have h0 : max 0 ri.module_degradation_rate_pct_per_year = 0 :=
      max_eq_left (le_of_lt hneg)
    have hnn : (0 : ℤ) ≤ max 1 ri.system_lifetime_years :=
      le_trans zero_le_one (le_max_left 1 _)
    simp only [calculate_replacement_emissions, h0]
    have h1 : (1 : ℚ) - 0 / 100 = 1 := by norm_num
    rw [h1, lifetime_generation_const]
    have hcast : (((1 ⊔ ri.system_lifetime_years).toNat : ℕ) : ℚ)
        = (((1 ⊔ ri.system_lifetime_years) : ℤ) : ℚ) := by
      rw [← Int.cast_natCast, Int.toNat_of_nonneg hnn]
    rw [hcast]

/-- C7 amended witness at the concrete negative inputs. -/
theorem C7_amended_witness :
    get_transport_factor "ship_container" none none = .ok shipContainerFactor
    ∧ ((-50 : ℚ) < 0) ∧ ((0 : ℚ) < 8000) ∧ ((0 : ℚ) < shipContainerFactor.value)
    ∧ (transport_total_exact none
          [{ mode := "ship_container", distance_km := 8000, mass_tonnes := -50 }] < 0
        ∧ (calculate_transport_emissions
            [{ mode := "ship_container", distance_km := 8000, mass_tonnes := -50 }]
            none).breakdown
          = [.ok 1 shipContainerFactor.mode (-50) 8000 (roundTo 2 ((-50) * 8000))
              shipContainerFactor.value
              (roundTo 2 ((-50) * 8000 * shipContainerFactor.value))
              shipContainerFactor.source])
    ∧ c7Ri.module_degradation_rate_pct_per_year < 0
    ∧ (calculate_replacement_emissions (some c7Ri) 10 1000 0 0.2).lifetime_generation_kwh
        = roundTo 1 (((max 1 c7Ri.system_lifetime_years : ℤ) : ℚ) * 1000) :=
  ⟨by decide, by norm_num, by norm_num, by decide,
   C7_amended.1 "ship_container" 8000 (-50) shipContainerFactor (by decide)
     (by norm_num) (by norm_num) (by decide),
   by decide,
   C7_amended.2 c7Ri 10 1000 0 0.2 (by decide)⟩

set_option maxRecDepth 100000 in
/-- C8 counterexample: at lifetime 25, degradation 0.5 %/year and 1000 kWh
first-year generation, the lifetime generation is not within 1 kWh of
23432 (it is about 23556). -/
theorem C8_counterexample :
    ¬ |(calculate_replacement_emissions (some c8Ri) 10 1000 0 0.2).lifetime_generation_kwh
        - 23432| ≤ 1 := by decide

set_option maxRecDepth 100000 in
/-- C8 amended: the lifetime generation is the geometric degradation sum
over year indices 0..L-1; for zero degradation it is exactly L x G; and at
L = 25, d = 0.005, G = 1000 kWh it is approximately 23556 kWh (within
1 kWh), not 23432. -/
theorem C8_amended :
    (∀ (n : ℕ) (a f : ℚ),
        lifetime_generation n a f = ∑ i ∈ Finset.range n, a * f ^ i)
    ∧ (∀ (n : ℕ) (a : ℚ), lifetime_generation n a 1 = n * a)
    ∧ (∀ (ri : ReplacementInput) (cap gen emb cfq : ℚ),
        1 ≤ ri.system_lifetime_years →
        0 ≤ ri.module_degradation_rate_pct_per_year →
        (calculate_replacement_emissions (some ri) cap gen emb cfq).lifetime_generation_kwh
          = roundTo 1 (∑ i ∈ Finset.range ri.system_lifetime_years.toNat,
              gen * (1 - ri.module_degradation_rate_pct_per_year / 100) ^ i))
    ∧ |(calculate_replacement_emissions (some c8Ri) 10 1000 0 0.2).lifetime_generation_kwh
        - 23556| ≤ 1 := by
  refine ⟨lifetime_generation_eq_sum, lifetime_generation_const, ?_, ?_⟩
  · intro ri cap gen emb cfq hL hd
    simp only [calculate_replacement_emissions, max_eq_right hL, max_eq_right hd]
    rw [lifetime_generation_eq_sum]
  · decide

/-- C8 amended witness at the concrete spec example c8Ri. -/
theorem C8_amended_witness :
    (1 : ℤ) ≤ c8Ri.system_lifetime_years
    ∧ (0 : ℚ) ≤ c8Ri.module_degradation_rate_pct_per_year
    ∧ (calculate_replacement_emissions (some c8Ri) 10 1000 0 0.2).lifetime_generation_kwh
        = roundTo 1 (∑ i ∈ Finset.range c8Ri.system_lifetime_years.toNat,
            1000 * (1 - c8Ri.module_degradation_rate_pct_per_year / 100) ^ i) :=
  ⟨by decide, by decide,
   C8_amended.2.2.1 c8Ri 10 1000 0 0.2 (by decide) (by decide)⟩

/-- C9: every transport leg with a known mode yields a success breakdown
entry with emissions = round(mass x distance x factor, 2), and a single-leg
journey reports that product (rounded) as the stage total. -/
theorem C9 :
    (∀ (i : ℕ) (leg : TransportLeg) (f : TransportEmissionFactor),
        get_transport_factor leg.mode none none = .ok f →
        transport_item none i leg =
          .ok (i + 1) f.mode leg.mass_tonnes leg.distance_km
            (roundTo 2 (leg.mass_tonnes * leg.distance_km)) f.value
            (roundTo 2 (leg.mass_tonnes * leg.distance_km * f.value)) f.source)
    ∧ (∀ (mo : String) (d m : ℚ) (f : TransportEmissionFactor),
        get_transport_factor mo none none = .ok f →
        calculate_transport_emissions
            [{ mode := mo, distance_km := d, mass_tonnes := m }] none =
          { total_kgCO2e := roundTo 2 (m * d * f.value),
            total_tonnesCO2e := roundTo 3 (m * d * f.value / 1000),
            breakdown := [.ok 1 f.mode m d (roundTo 2 (m * d)) f.value
              (roundTo 2 (m * d * f.value)) f.source],
            note := none }) := by
  refine ⟨transport_item_ok, ?_⟩
  intro mo d m f h
  have hc := transport_single_total mo d m f h
  have hb := transport_item_ok 0 { mode := mo, distance_km := d, mass_tonnes := m } f h
  simp only [calculate_transport_emissions, transport_breakdown, hc, hb]

/-- C9 witness: the 50 t x 8000 km ship_container leg gives tonne_km 400000
and emissions 2524.0 kgCO2e, which is also the stage total. -/
theorem C9_witness :
    get_transport_factor "ship_container" none none = .ok shipContainerFactor
    ∧ calculate_transport_emissions
        [{ mode := "ship_container", distance_km := 8000, mass_tonnes := 50 }] none =
      { total_kgCO2e := 2524, total_tonnesCO2e := 2.524,
        breakdown := [.ok 1 "Container ship" 50 8000 400000 0.00631 2524
          "UK Government GHG Conversion Factors 2024 (DESNZ)"],
        note := none } :=
  ⟨by decide,
   (C9.2 "ship_container" 8000 50 shipContainerFactor (by decide)).trans (by decide)⟩

/-- C10: a ConstructionInput whose method is neither "simple" nor "detailed"
makes the construction stage return the degenerate zero result with the
note "Invalid construction method", for every embodied total and grid
factor, without raising and without falling back to the simple default. -/
theorem C10 (ci : ConstructionInput) (e : ℚ) (g : Option ℚ)
    (h1 : ci.method ≠ "simple") (h2 : ci.method ≠ "detailed") :
    calculate_construction_emissions (some ci) e g =
      { method := none, total_kgCO2e := 0, total_tonnesCO2e := 0,
        breakdown := [], assumptions := none,
        note := some "Invalid construction method" } := by
  simp only [calculate_construction_emissions, if_neg h1, if_neg h2]

/-- C10 witness at the concrete method string "percentage". -/
theorem C10_witness :
    ({ method := "percentage" } : ConstructionInput).method ≠ "simple"
    ∧ ({ method := "percentage" } : ConstructionInput).method ≠ "detailed"
    ∧ calculate_construction_emissions (some { method := "percentage" }) 12345
        (some 0.2) =
      { method := none, total_kgCO2e := 0, total_tonnesCO2e := 0,
        breakdown := [], assumptions := none,
        note := some "Invalid construction method" } :=
  ⟨by decide, by decide, C10 _ 12345 (some 0.2) (by decide) (by decide)⟩

end SolarCarbon
